import Mathlib

/-!
Verification development for the pvlib simulation pipeline compiler
(`pvlib/mcdask.py`) and the single-diode electrical solver
(`pvlib/pvsystem.py`).

The dask task graph built by `basic_chain` is embedded shallowly: a graph is
an insertion-ordered association list from node names to tasks.  A task is a
small AST mirroring the Python tuples stored in the dict: string leaves
(which dask treats as references when they match a key of the graph), numeric
leaves, the Python `None` literal, tagged leaves for objects that the claims
never inspect (pandas frames, function handles), and applications of a named
operation to a list of argument tasks.

Python exceptions are modelled with an explicit error type; `basic_chain`
returns `Except PyErr Graph`, and its `try/except ValueError` blocks catch
exactly the `valueError` constructor, as in the source.
-/

namespace PV


/-- AST of one dask task, mirroring the tuples stored in the `dsk` dict of
`basic_chain`.  A `str` leaf is a Python string: dask interprets it as a
reference to another node exactly when it coincides with a key of the graph.
A `data` leaf stands for an object embedded in the task (weather columns,
function objects inside `functools` wrappers) that no claim inspects. -/
inductive Task where
  | str : String → Task
  | num : ℚ → Task
  | pynone : Task
  | data : String → Task
  | app : String → List Task → Task

/-- All string leaves occurring in a task (candidate node references). -/
def Task.strs : Task → List String
  | .str s => [s]
  | .num _ => []
  | .pynone => []
  | .data _ => []
  | .app _ args => strsList args
where
  /-- String leaves of a list of tasks. -/
  strsList : List Task → List String
  | [] => []
  | t :: ts => t.strs ++ strsList ts

/-- Python `str.lower()`, as a character-wise map over the string data. -/
def pyLower (s : String) : String := ⟨s.data.map Char.toLower⟩

/-- The Python exceptions that the compiler code can raise. -/
inductive PyErr where
  | valueError : String → PyErr
  | nameError : String → PyErr
  | notImplementedError : PyErr
  | keyError : String → PyErr
deriving DecidableEq

/-- A `dc_model` / `ac_model` / ... argument of `basic_chain`: Python `None`
(infer), a variant-name string, or any other object, which the source stores
in the graph verbatim (`else: model_dsk = dc_model`). -/
inductive ModelArg where
  | none_ : ModelArg
  | name : String → ModelArg
  | obj : Task → ModelArg

/-- A module / inverter parameter mapping.  Values are numeric; only the keys
are ever used by model inference. -/
abbrev PParams := List (String × ℚ)

/-- `set(mapping.keys())` — the key set of a parameter mapping. -/
def keyset (ps : PParams) : List String := ps.map Prod.fst

/-- `required <= params` — subset test on key sets. -/
def subsetKeys (req keys : List String) : Bool :=
  req.all fun s => decide (s ∈ keys)

/-- `mapping[k]` — dict access, raising `KeyError` when the key is absent. -/
def dictGet (ps : PParams) (k : String) : Except PyErr ℚ :=
  match ps.lookup k with
  | some v => .ok v
  | none => .error (.keyError k)

/-- A dask graph: insertion-ordered association list from node name to task.
`basic_chain` assigns every key at most once, so append models dict update. -/
abbrev Graph := List (String × Task)

/-- Keys of a graph, in insertion order. -/
def keysG (g : Graph) : List String := g.map Prod.fst

/-- Lookup of a node by name. -/
def lookupG : Graph → String → Option Task
  | [], _ => none
  | (k, t) :: g, n => if n = k then some t else lookupG g n

/-- `infer_aoi_model` from `mcdask.py`. -/
def infer_aoi_model (module_parameters : PParams) : Except PyErr String :=
  if subsetKeys ["K", "L", "n"] (keyset module_parameters) then .ok "physical"
  else if subsetKeys ["B5", "B4", "B3", "B2", "B1", "B0"] (keyset module_parameters) then
    .ok "sapm"
  else if subsetKeys ["b"] (keyset module_parameters) then .ok "ashrae"
  else .error (.valueError "could not infer AOI model from module_parameters")

/-- `infer_spectral_model` from `mcdask.py`. -/
def infer_spectral_model (module_parameters : PParams) : Except PyErr String :=
  if subsetKeys ["A4", "A3", "A2", "A1", "A0"] (keyset module_parameters) then .ok "sapm"
  else if decide ("Technology" ∈ keyset module_parameters) ||
      decide ("Material" ∈ keyset module_parameters) ||
      decide ("first_solar_spectral_coefficients" ∈ keyset module_parameters) then
    .ok "first_solar"
  else .error (.valueError "could not infer spectral model from system.module_parameters")

/-- `infer_dc_model` from `mcdask.py`. -/
def infer_dc_model (module_parameters : PParams) : Except PyErr String :=
  if subsetKeys ["A0", "A1", "C7"] (keyset module_parameters) then .ok "sapm"
  else if subsetKeys ["a_ref", "I_L_ref", "I_o_ref", "R_sh_ref", "R_s"]
      (keyset module_parameters) then .ok "singlediode"
  else if subsetKeys ["pdc0", "gamma_pdc"] (keyset module_parameters) then .ok "pvwatts"
  else .error (.valueError "could not infer DC model from module_parameters")

/-- `infer_ac_model` from `mcdask.py`. -/
def infer_ac_model (module_parameters inverter_parameters : PParams) :
    Except PyErr String :=
  if subsetKeys ["C0", "C1", "C2"] (keyset inverter_parameters) then .ok "snlinverter"
  else if subsetKeys ["ADRCoefficients"] (keyset inverter_parameters) then
    .ok "adrinverter"
  else if subsetKeys ["pdc0"] (keyset module_parameters) then .ok "pvwatts"
  else .error (.valueError "could not infer AC model from module_parameters or inverter_parameters")

/-- Dispatch on the (lowercased) AOI model name in `assign_aoi_model`.  The
`physical` branch mentions the bare name `physicaliam`, which is not defined
in the module namespace of `mcdask.py` (only `pvsystem.physicaliam` exists),
so building that task raises `NameError`. -/
def dispatch_aoi (model : String) (module_parameters : PParams) : Except PyErr Task :=
  if model = "ashrae" then .ok (.app "pvsystem.ashraeiam" [.str "aoi"])
  else if model = "physical" then .error (.nameError "name physicaliam is not defined")
  else if model = "sapm" then
    .ok (.app "pvsystem.sapm" [.str "aoi", .data "module_parameters"])
  else if model = "no_loss" then .ok (.num 1)
  else .error (.valueError (model ++ " is not a valid aoi loss model"))

/-- `assign_aoi_model` from `mcdask.py`: infer when `None`, dispatch on a
string, store any other object verbatim.  `module_parameters` is threaded
to the dispatcher unchanged. -/
def assign_aoi_model (aoi_model : ModelArg) (module_parameters : PParams) :
    Except PyErr Task :=
  match aoi_model with
  | .none_ =>
      match infer_aoi_model module_parameters with
      | .error e => .error e
      | .ok s => dispatch_aoi (pyLower s) module_parameters
  | .name s => dispatch_aoi (pyLower s) module_parameters
  | .obj t => .ok t

/-- Dispatch on the (lowercased) spectral model name in
`assign_spectral_model`.  The `first_solar` branch raises
`NotImplementedError` before building any task. -/
def dispatch_spectral (model : String) (module_parameters : PParams) :
    Except PyErr Task :=
  if model = "first_solar" then .error .notImplementedError
  else if model = "sapm" then
    .ok (.app "pvsystem.sapm" [.str "airmass_absolute", .data "module_parameters"])
  else if model = "no_loss" then .ok (.num 1)
  else .error (.valueError (model ++ " is not a valid spectral loss model"))

/-- `assign_spectral_model` from `mcdask.py`. -/
def assign_spectral_model (spectral_model : ModelArg) (module_parameters : PParams) :
    Except PyErr Task :=
  match spectral_model with
  | .none_ =>
      match infer_spectral_model module_parameters with
      | .error e => .error e
      | .ok s => dispatch_spectral (pyLower s) module_parameters
  | .name s => dispatch_spectral (pyLower s) module_parameters
  | .obj t => .ok t

/-- Dispatch on the (lowercased) DC model name in `assign_dc_model`.  The
third branch of the source reads `elif mode == 'singlediode':` where `mode`
is an undefined variable (the earlier lines bind `model`), so every string
other than `pvwatts` / `sapm` — including `singlediode` itself and any
unrecognized name — raises `NameError` when that condition is evaluated; the
`raise NotImplementedError` body and the final `raise ValueError` are
unreachable. -/
def dispatch_dc (model : String) (module_parameters : PParams) : Except PyErr Task :=
  if model = "pvwatts" then
    match dictGet module_parameters "pdc0" with
    | .error e => .error e
    | .ok pdc0 =>
      match dictGet module_parameters "gamma_pdc" with
      | .error e => .error e
      | .ok gamma_pdc =>
        .ok (.app "pvsystem.pvwatts_dc"
          [.str "effective_irradiance",
           .app "getattr" [.str "temps", .str "temp_cell"],
           .num pdc0, .num gamma_pdc])
  else if model = "sapm" then
    .ok (.app "pvsystem.sapm"
      [.app "truediv" [.str "effective_irradiance", .num 1000],
       .app "getattr" [.str "temps", .str "temp_cell"],
       .data "module_parameters"])
  else .error (.nameError "name mode is not defined")

/-- `assign_dc_model` from `mcdask.py`. -/
def assign_dc_model (dc_model : ModelArg) (module_parameters : PParams) :
    Except PyErr Task :=
  match dc_model with
  | .none_ =>
      match infer_dc_model module_parameters with
      | .error e => .error e
      | .ok s => dispatch_dc (pyLower s) module_parameters
  | .name s => dispatch_dc (pyLower s) module_parameters
  | .obj t => .ok t

/-- Dispatch on the (lowercased) AC model name in `assign_ac_model`. -/
def dispatch_ac (model : String) (module_parameters : PParams) : Except PyErr Task :=
  if model = "pvwatts" then
    match dictGet module_parameters "pdc0" with
    | .error e => .error e
    | .ok pdc0 => .ok (.app "pvsystem.pvwatts_ac" [.str "dc", .num pdc0])
  else if model = "snlinverter" then
    .ok (.app "pvsystem.snlinverter"
      [.app "getattr" [.str "dc", .str "v_mp"],
       .app "getattr" [.str "dc", .str "p_mp"]])
  else .error (.valueError (model ++ " is not a valid AC power model"))

/-- `assign_ac_model` from `mcdask.py`. -/
def assign_ac_model (ac_model : ModelArg) (module_parameters inverter_parameters : PParams) :
    Except PyErr Task :=
  match ac_model with
  | .none_ =>
      match infer_ac_model module_parameters inverter_parameters with
      | .error e => .error e
      | .ok s => dispatch_ac (pyLower s) module_parameters
  | .name s => dispatch_ac (pyLower s) module_parameters
  | .obj t => .ok t

/-- Dispatch on the (lowercased) losses model name in `assign_losses_model`. -/
def dispatch_losses (model : String) : Except PyErr Task :=
  if model = "pvwatts" then
    .ok (.app "truediv" [.app "sub" [.num 100, .app "pvsystem.pvwatts_losses" []], .num 100])
  else if model = "no_loss" then .ok (.num 1)
  else .error (.valueError (model ++ " is not a valid losses model"))

/-- `assign_losses_model` from `mcdask.py`: a `None` argument is first
replaced by the string `None`, which then fails the name dispatch. -/
def assign_losses_model (losses_model : ModelArg) : Except PyErr Task :=
  match losses_model with
  | .none_ => dispatch_losses (pyLower "None")
  | .name s => dispatch_losses (pyLower s)
  | .obj t => .ok t

/-- `(getattr, 'solar_position', 'apparent_zenith')` — look-up task bound at
the top of `basic_chain`. -/
def apparent_zenith : Task := .app "getattr" [.str "solar_position", .str "apparent_zenith"]

/-- `(getattr, 'solar_position', 'azimuth')`. -/
def azimuth : Task := .app "getattr" [.str "solar_position", .str "azimuth"]

/-- `(getattr, 'poa_irrad', 'poa_global')`. -/
def poa_global : Task := .app "getattr" [.str "poa_irrad", .str "poa_global"]

/-- `(getattr, 'poa_irrad', 'poa_direct')`. -/
def poa_direct : Task := .app "getattr" [.str "poa_irrad", .str "poa_direct"]

/-- `(getattr, 'poa_irrad', 'poa_diffuse')`. -/
def poa_diffuse : Task := .app "getattr" [.str "poa_irrad", .str "poa_diffuse"]

/-- A Python `None`-or-float argument (`altitude`, `pressure`) embedded in a
task. -/
def optTask : Option ℚ → Task
  | none => .pynone
  | some x => .num x

/-- The initial `dsk` dict literal of `basic_chain`, before the model-specific
stages are appended.  `weather`-derived objects and the callables wrapped in
`functools` closures (which dask never traverses for references) are embedded
as `data` leaves; the strings appearing directly in the task tuples are kept
as `str` leaves. -/
def initial_dsk (latitude longitude surface_tilt surface_azimuth : ℚ)
    (transposition_model : String) (altitude pressure : Option ℚ) : Graph :=
  [("times", .data "weather.index"),
   ("wind_speed-1", .app "var_or_default" [.data "weather", .str "wind_speed", .num 0]),
   ("temp_air-1", .app "var_or_default" [.data "weather", .str "temp_air", .num 25]),
   ("pressure,altitude",
     .app "infer_pressure_altitude" [optTask altitude, optTask pressure]),
   ("pressure", .app "lambda x: x[0]" [.str "pressure,altitude"]),
   ("altitude", .app "lambda x: x[1]" [.str "pressure,altitude"]),
   ("solar_position",
     .app "solarposition.get_solarposition"
       [.str "times", .num latitude, .num longitude]),
   ("airmass_relative", .app "atmosphere.relativeairmass" [apparent_zenith]),
   ("airmass_absolute",
     .app "atmosphere.absoluteairmass" [.str "airmass_relative", .str "pressure"]),
   ("dni_extra-1", .app "pvlib.irradiance.extraradiation" [.str "times"]),
   ("aoi",
     .app "pvlib.irradiance.aoi"
       [.num surface_tilt, .num surface_azimuth, apparent_zenith, azimuth]),
   ("poa_irrad",
     .app "apply"
       [.data "pvlib.irradiance.total_irrad",
        .app "list"
          [.num surface_tilt, .num surface_azimuth, apparent_zenith, azimuth,
           .data "weather_dni", .data "weather_ghi", .data "weather_dhi"],
        .app "dict"
          [.app "list"
            [.app "list" [.str "model", .str transposition_model],
             .app "list" [.str "dni_extra", .str "dni_extra-1"],
             .app "list" [.str "airmass", .str "airmass_absolute"]]]]),
   ("temps",
     .app "pvsystem.sapm_celltemp" [poa_global, .str "wind_speed-1", .str "temp_air-1"]),
   ("effective_irradiance",
     .app "mul"
       [.str "spectral_modifier",
        .app "add"
          [.app "mul" [poa_direct, .str "aoi_modifier"],
           .app "mul"
             [.app "getattr" [.str "module_parameters", .str "FD", .num 1],
              poa_diffuse]]])]

/-- One `try: dsk[key] = assign_...(...) except ValueError: warn` block of
`basic_chain`: a `ValueError` is caught (the warning is not modelled) and the
stage is omitted; any other exception propagates. -/
def tryAdd (g : Graph) (key : String) (r : Except PyErr Task) : Except PyErr Graph :=
  match r with
  | .ok t => .ok (g ++ [(key, t)])
  | .error (.valueError _) => .ok g
  | .error e => .error e

/-- The final `try` block of `basic_chain`: on success both `losses` and
`ac = (mul, 'ac_no_loss', 'losses')` are assigned; on `ValueError` the code
falls back to `dsk['ac'] = dsk['ac_no_loss']`, swallowing the `KeyError`
when `ac_no_loss` is absent. -/
def lossesBlock (g : Graph) (r : Except PyErr Task) : Except PyErr Graph :=
  match r with
  | .ok t =>
      .ok (g ++ [("losses", t), ("ac", .app "mul" [.str "ac_no_loss", .str "losses"])])
  | .error (.valueError _) =>
      match lookupG g "ac_no_loss" with
      | some t => .ok (g ++ [("ac", t)])
      | none => .ok g
  | .error e => .error e

/-- `basic_chain` from `mcdask.py`.  The arguments that only reach positions
dask never traverses (`weather`, `solar_position_method`, `airmass_model`,
the unused `temp_model`) are fixed inside `initial_dsk` as `data` leaves. -/
def basic_chain (latitude longitude surface_tilt surface_azimuth : ℚ)
    (module_parameters inverter_parameters : PParams)
    (transposition_model : String) (altitude pressure : Option ℚ)
    (dc_model ac_model aoi_model spectral_model losses_model : ModelArg) :
    Except PyErr Graph :=
  match tryAdd (initial_dsk latitude longitude surface_tilt surface_azimuth
      transposition_model altitude pressure)
      "aoi_modifier" (assign_aoi_model aoi_model module_parameters) with
  | .error e => .error e
  | .ok g1 =>
  match tryAdd g1 "spectral_modifier"
      (assign_spectral_model spectral_model module_parameters) with
  | .error e => .error e
  | .ok g2 =>
  match tryAdd g2 "dc" (assign_dc_model dc_model module_parameters) with
  | .error e => .error e
  | .ok g3 =>
  match tryAdd g3 "ac_no_loss"
      (assign_ac_model ac_model module_parameters inverter_parameters) with
  | .error e => .error e
  | .ok g4 =>
  lossesBlock g4 (assign_losses_model losses_model)

/-! ## The node-reference relation -/

/-- Keys of the fixed scaffold `initial_dsk`. -/
def scaffoldKeys : List String :=
  ["times", "wind_speed-1", "temp_air-1", "pressure,altitude", "pressure",
   "altitude", "solar_position", "airmass_relative", "airmass_absolute",
   "dni_extra-1", "aoi", "poa_irrad", "temps", "effective_irradiance"]

/-- Keys of the five model-dependent stages. -/
def stageKeys : List String :=
  ["aoi_modifier", "spectral_modifier", "dc", "ac_no_loss", "losses"]

/-- Every node name `basic_chain` can ever assign. -/
def nodeNames : List String := scaffoldKeys ++ stageKeys ++ ["ac"]

/-- Node names that some task built by `basic_chain` may reference (`ac` is
referenced by nothing). -/
def refTargets : List String := scaffoldKeys ++ stageKeys

/-- A level assignment on node names under which every reference built by
`basic_chain` points strictly downward; it witnesses that the reference
relation is acyclic and topologically sortable. -/
def rank : String → ℕ
  | "pressure" => 1
  | "altitude" => 1
  | "solar_position" => 1
  | "dni_extra-1" => 1
  | "losses" => 1
  | "airmass_relative" => 2
  | "aoi" => 2
  | "airmass_absolute" => 3
  | "aoi_modifier" => 3
  | "poa_irrad" => 4
  | "spectral_modifier" => 4
  | "temps" => 5
  | "effective_irradiance" => 6
  | "dc" => 7
  | "ac_no_loss" => 8
  | "ac" => 9
  | _ => 0

/-- All node-name references of a task lie strictly below level `r` and are
legitimate reference targets. -/
def TaskOK (r : ℕ) (t : Task) : Prop :=
  ∀ m ∈ t.strs, m ∈ nodeNames → rank m < r ∧ m ∈ refTargets

instance (r : ℕ) (t : Task) : Decidable (TaskOK r t) :=
  inferInstanceAs (Decidable (∀ m ∈ t.strs, m ∈ nodeNames → rank m < r ∧ m ∈ refTargets))

/-- A task mentioning no node name at all (a caller-supplied literal). -/
def CleanTask (t : Task) : Prop := ∀ m ∈ t.strs, m ∉ nodeNames

/-- A model argument that is `None`, a variant name, or a literal task free of
node-name strings. -/
def CleanArg : ModelArg → Prop
  | .none_ => True
  | .name _ => True
  | .obj t => CleanTask t

/-- Every node's references point to nodes of strictly smaller rank: the
reference relation is acyclic and `rank` sorts it topologically. -/
def RankDecreasing (g : Graph) : Prop :=
  ∀ p ∈ g, ∀ m ∈ (Prod.snd p).strs, m ∈ keysG g → rank m < rank (Prod.fst p)

instance (g : Graph) : Decidable (RankDecreasing g) :=
  inferInstanceAs
    (Decidable (∀ p ∈ g, ∀ m ∈ (Prod.snd p).strs, m ∈ keysG g → rank m < rank (Prod.fst p)))

/-- Every node-name reference occurring in any node's task resolves to a key
present in the graph. -/
def RefsResolve (g : Graph) : Prop :=
  ∀ p ∈ g, ∀ m ∈ (Prod.snd p).strs, m ∈ nodeNames → m ∈ keysG g

instance (g : Graph) : Decidable (RefsResolve g) :=
  inferInstanceAs
    (Decidable (∀ p ∈ g, ∀ m ∈ (Prod.snd p).strs, m ∈ nodeNames → m ∈ keysG g))

/-- Invariant carried through the construction: every stored task is rank-safe
and every key is a legitimate node name. -/
def GraphOK (g : Graph) : Prop :=
  (∀ p ∈ g, TaskOK (rank (Prod.fst p)) (Prod.snd p)) ∧ ∀ k ∈ keysG g, k ∈ nodeNames

/-! ## Decomposition of `basic_chain` -/

/-- The optional single-node graph a `try` stage contributes. -/
def maybeNode (k : String) : Option Task → Graph
  | none => []
  | some t => [(k, t)]

/-- The graph after the four `tryAdd` stages, given each stage outcome. -/
def stageGraph (g0 : Graph) (o1 o2 o3 o4 : Option Task) : Graph :=
  g0 ++ maybeNode "aoi_modifier" o1 ++ maybeNode "spectral_modifier" o2 ++
    maybeNode "dc" o3 ++ maybeNode "ac_no_loss" o4

/-- Claim C1 exactly as stated: every graph returned by `basic_chain`,
regardless of which model stages resolved, has an acyclic reference relation
and every node-name reference resolves to a key present in the graph. -/
def ClaimC1Stated : Prop :=
  ∀ (latitude longitude surface_tilt surface_azimuth : ℚ)
    (mp ip : PParams) (tm : String) (altitude pressure : Option ℚ)
    (dm acm am sm lm : ModelArg) (g : Graph),
    basic_chain latitude longitude surface_tilt surface_azimuth mp ip tm
      altitude pressure dm acm am sm lm = .ok g →
    RankDecreasing g ∧ RefsResolve g

/-- A run whose AOI stage fails to resolve (module keys `pdc0, gamma_pdc`
support no AOI rule): the returned graph omits `aoi_modifier` while
`effective_irradiance` still references it. -/
def gC1bad : Graph :=
  (basic_chain 32 110 30 180 [("pdc0", 1000), ("gamma_pdc", -1)] [] "haydavies"
      none none .none_ .none_ .none_ (.name "no_loss") (.name "no_loss")).toOption.getD []

/-- A run in which all five stages resolve (`b` makes the AOI rule `ashrae`
fire). -/
def gC1full : Graph :=
  (basic_chain 32 110 30 180 [("pdc0", 1000), ("gamma_pdc", -1), ("b", 1)] []
      "haydavies" none none .none_ .none_ .none_ (.name "no_loss")
      (.name "no_loss")).toOption.getD []

/-- Claim C3 exactly as stated: `ac` is present exactly when `ac_no_loss`
resolved (with the product task when `losses` also resolved), and `ac` never
references a node that is not a key of the graph. -/
def ClaimC3Stated : Prop :=
  ∀ (latitude longitude surface_tilt surface_azimuth : ℚ)
    (mp ip : PParams) (tm : String) (altitude pressure : Option ℚ)
    (dm acm am sm lm : ModelArg) (g : Graph),
    basic_chain latitude longitude surface_tilt surface_azimuth mp ip tm
      altitude pressure dm acm am sm lm = .ok g →
    (("ac" ∈ keysG g) ↔ "ac_no_loss" ∈ keysG g) ∧
    (∀ t, lookupG g "ac" = some t → ∀ m ∈ t.strs, m ∈ nodeNames → m ∈ keysG g) ∧
    ("ac_no_loss" ∈ keysG g ∧ "losses" ∈ keysG g →
      lookupG g "ac" = some (.app "mul" [.str "ac_no_loss", .str "losses"]))

/-- A run whose AC stage fails on an unrecognized name while the losses stage
resolves: `ac` is present as `(mul, ac_no_loss, losses)` although
`ac_no_loss` is absent. -/
def gC3bad : Graph :=
  (basic_chain 32 110 30 180 [("pdc0", 1000), ("gamma_pdc", -1)] [] "haydavies"
      none none .none_ (.name "foo") (.name "no_loss") (.name "no_loss")
      (.name "no_loss")).toOption.getD []

/-- A run whose losses stage fails (`losses_model=None` turns into the
unknown name `none`) while the AC stage resolves: `ac` falls back to the
`ac_no_loss` task. -/
def gC3fallback : Graph :=
  (basic_chain 32 110 30 180 [("pdc0", 1000), ("gamma_pdc", -1)] [] "haydavies"
      none none .none_ .none_ (.name "no_loss") (.name "no_loss")
      .none_).toOption.getD []

/-- Claim C2 exactly as stated (for the AC domain): supplying an unrecognized
AC variant name makes the whole compile fail — no graph is returned. -/
def ClaimC2Stated : Prop :=
  ∀ (latitude longitude surface_tilt surface_azimuth : ℚ)
    (mp ip : PParams) (tm : String) (altitude pressure : Option ℚ)
    (dm am sm lm : ModelArg) (s : String),
    pyLower s ≠ "pvwatts" → pyLower s ≠ "snlinverter" →
    ∀ g, basic_chain latitude longitude surface_tilt surface_azimuth mp ip tm
      altitude pressure dm (.name s) am sm lm ≠ .ok g

/-! ## Evaluation of the pressure/altitude fragment (C4) -/

/-- Runtime values arising while evaluating the pressure/altitude fragment of
the graph: floats, Python `None`, strings, tuples, and opaque objects. -/
inductive PVal where
  | q : ℚ → PVal
  | none_ : PVal
  | strv : String → PVal
  | pairv : PVal → PVal → PVal
  | blob : String → PVal

/-- `infer_pressure_altitude` from `mcdask.py`: note the source returns the
tuple `(altitude, pressure)` — altitude first.  The barometric conversions
`atmosphere.pres2alt` / `atmosphere.alt2pres` are not among the sources and
are kept abstract as the function parameters `pres2alt` / `alt2pres`
(modelled from the spec: a fixed barometric relation deriving the missing
quantity). -/
def infer_pressure_altitude (pres2alt alt2pres : ℚ → ℚ) :
    Option ℚ → Option ℚ → ℚ × ℚ
  | none, none => (0, 101325)
  | none, some p => (pres2alt p, p)
  | some a, none => (a, alt2pres a)
  | some a, some p => (a, p)

/-- An evaluated argument viewed as Python `None`-or-float, when it is one. -/
def PVal.asOptQ : PVal → Option (Option ℚ)
  | .q x => some (some x)
  | .none_ => some none
  | _ => none

/-- A fuel-bounded evaluator for the fragment of dask semantics that C4
inspects: a string that is a key evaluates the referenced node, other leaves
evaluate to themselves, and the three operations of the pressure/altitude
reconciliation compute; every other operation is opaque (`none`). -/
def evalT (pres2alt alt2pres : ℚ → ℚ) (g : Graph) : ℕ → Task → Option PVal
  | 0, _ => none
  | _ + 1, .num x => some (.q x)
  | _ + 1, .pynone => some .none_
  | _ + 1, .data s => some (.blob s)
  | fuel + 1, .str s =>
      match lookupG g s with
      | some t => evalT pres2alt alt2pres g fuel t
      | none => some (.strv s)
  | fuel + 1, .app f args =>
      if f = "infer_pressure_altitude" then
        match args with
        | [a, b] =>
            match evalT pres2alt alt2pres g fuel a, evalT pres2alt alt2pres g fuel b with
            | some va, some vb =>
                match va.asOptQ, vb.asOptQ with
                | some alt, some pres =>
                    some (.pairv (.q (infer_pressure_altitude pres2alt alt2pres alt pres).1)
                      (.q (infer_pressure_altitude pres2alt alt2pres alt pres).2))
                | _, _ => none
            | _, _ => none
        | _ => none
      else if f = "lambda x: x[0]" then
        match args with
        | [a] =>
            match evalT pres2alt alt2pres g fuel a with
            | some (.pairv x _) => some x
            | _ => none
        | _ => none
      else if f = "lambda x: x[1]" then
        match args with
        | [a] =>
            match evalT pres2alt alt2pres g fuel a with
            | some (.pairv _ y) => some y
            | _ => none
        | _ => none
      else none

/-- Evaluate one node of a graph. -/
def evalNode (pres2alt alt2pres : ℚ → ℚ) (g : Graph) (n : String) : Option PVal :=
  match lookupG g n with
  | some t => evalT pres2alt alt2pres g 8 t
  | none => none

/-- The graph compiled with neither altitude nor pressure supplied. -/
def gC4 : Graph :=
  (basic_chain 32 110 30 180 [("pdc0", 1000), ("gamma_pdc", -1)] [] "haydavies"
      none none .none_ .none_ (.name "no_loss") (.name "no_loss")
      (.name "no_loss")).toOption.getD []

/-- The graph compiled with only `altitude = 700` supplied. -/
def gC4alt : Graph :=
  (basic_chain 32 110 30 180 [("pdc0", 1000), ("gamma_pdc", -1)] [] "haydavies"
      (some 700) none .none_ .none_ (.name "no_loss") (.name "no_loss")
      (.name "no_loss")).toOption.getD []

/-! ## The single-diode operating-point solver (`pvsystem.py`) -/

/-- `i_from_v` from `pvsystem.py` (Jain-Kapoor eq. 4): current from voltage.
`pyexp` models `numpy.exp` and `W` the real part of the principal-branch
`scipy.special.lambertw` (the source computes `I` as a complex quantity and
returns `I.real`, discarding the numerically negligible imaginary part). -/
def i_from_v (pyexp W : ℚ → ℚ) (resistance_shunt resistance_series nNsVth
    voltage saturation_current photocurrent : ℚ) : ℚ :=
  let Rsh := resistance_shunt
  let Rs := resistance_series
  let I0 := saturation_current
  let IL := photocurrent
  let V := voltage
  let argW := Rs * I0 * Rsh *
    pyexp (Rsh * (Rs * (IL + I0) + V) / (nNsVth * (Rs + Rsh))) /
    (nNsVth * (Rs + Rsh))
  let lambertwterm := W argW
  let I := -V / (Rs + Rsh) - nNsVth / Rs * lambertwterm + Rsh * (IL + I0) / (Rs + Rsh)
  I

/-- `v_from_i` from `pvsystem.py` (Jain-Kapoor eq. 3): voltage from current,
with the same conventions as `i_from_v`. -/
def v_from_i (pyexp W : ℚ → ℚ) (resistance_shunt resistance_series nNsVth
    current saturation_current photocurrent : ℚ) : ℚ :=
  let Rsh := resistance_shunt
  let Rs := resistance_series
  let I0 := saturation_current
  let IL := photocurrent
  let I := current
  let argW := I0 * Rsh / nNsVth * pyexp (Rsh * (-I + IL + I0) / nNsVth)
  let lambertwterm := W argW
  let V := -I * (Rs + Rsh) + IL * Rsh - nNsVth * lambertwterm + I0 * Rsh
  V

/-- Floats that may be NaN are modelled as `Option ℚ` with `none` for NaN;
multiplication propagates NaN. -/
def omul : Option ℚ → Option ℚ → Option ℚ
  | some a, some b => some (a * b)
  | _, _ => none

/-- NaN-propagating addition. -/
def oadd : Option ℚ → Option ℚ → Option ℚ
  | some a, some b => some (a + b)
  | _, _ => none

/-- `i_from_v` lifted over NaN-propagating values. -/
def oi_from_v (pyexp W : ℚ → ℚ) (Rsh Rs n V I0 IL : Option ℚ) : Option ℚ :=
  match Rsh, Rs, n, V, I0, IL with
  | some a, some b, some c, some d, some e, some f =>
      some (i_from_v pyexp W a b c d e f)
  | _, _, _, _, _, _ => none

/-- `v_from_i` lifted over NaN-propagating values. -/
def ov_from_i (pyexp W : ℚ → ℚ) (Rsh Rs n I I0 IL : Option ℚ) : Option ℚ :=
  match Rsh, Rs, n, I, I0, IL with
  | some a, some b, some c, some d, some e, some f =>
      some (v_from_i pyexp W a b c d e f)
  | _, _, _, _, _, _ => none

/-- One row of the `params` frame `singlediode` iterates over: the five
diode parameters of one instant. -/
structure DiodeIn where
  r_sh : Option ℚ
  r_s : Option ℚ
  nNsVth : Option ℚ
  i_0 : Option ℚ
  i_l : Option ℚ

/-- The result of one `scipy.optimize.fmin_tnc` call: the source reads only
`[0][0]` (the solution point, kept here in `x`) and discards the return code
`rc` that reports whether the bounded search converged (`converged`). -/
structure OptResult where
  x : Option ℚ
  converged : Bool

/-- One output row of `singlediode`. -/
structure SDRow where
  i_sc : Option ℚ
  v_oc : Option ℚ
  i_mp : Option ℚ
  v_mp : Option ℚ
  p_mp : Option ℚ
  i_x : Option ℚ
  i_xx : Option ℚ

/-- One instant of `singlediode` from `pvsystem.py`: the source computes the
columns `i_sc, v_oc` vectorized, loops `fmin_tnc` row by row for `i_mp`
(seed `data['i_sc']*0.9`, arguments the row's five diode parameters,
objective `_neg_p_from_i` with gradient `_neg_dpower_dcurrent`, both folded
into the abstract optimizer `opt`), then computes `v_mp, p_mp, i_x, i_xx`
vectorized; since all columns are aligned elementwise, the per-row view is
the faithful translation. -/
def sd_row (pyexp W : ℚ → ℚ) (opt : Option ℚ → DiodeIn → OptResult)
    (d : DiodeIn) : SDRow :=
  let i_sc := oi_from_v pyexp W d.r_sh d.r_s d.nNsVth (some (1/100)) d.i_0 d.i_l
  let v_oc := ov_from_i pyexp W d.r_sh d.r_s d.nNsVth (some 0) d.i_0 d.i_l
  let i_mp := (opt (omul i_sc (some (9/10))) d).x
  let v_mp := ov_from_i pyexp W d.r_sh d.r_s d.nNsVth i_mp d.i_0 d.i_l
  let p_mp := omul i_mp v_mp
  let i_x := oi_from_v pyexp W d.r_sh d.r_s d.nNsVth (omul (some (1/2)) v_oc)
    d.i_0 d.i_l
  let i_xx := oi_from_v pyexp W d.r_sh d.r_s d.nNsVth
    (omul (some (1/2)) (oadd v_oc v_mp)) d.i_0 d.i_l
  ⟨i_sc, v_oc, i_mp, v_mp, p_mp, i_x, i_xx⟩

/-- `singlediode` over a batch of instants. -/
def singlediode (pyexp W : ℚ → ℚ) (opt : Option ℚ → DiodeIn → OptResult)
    (rows : List DiodeIn) : List SDRow :=
  rows.map (sd_row pyexp W opt)

/-- The derived-definition contract of one `singlediode` output row (spec
wording): `i_sc` is the solved current at `V = 0.01`, `v_oc` the solved
voltage at `I = 0`, `i_mp` the bounded search result seeded at `0.9*i_sc`,
`v_mp` the solved voltage at `i_mp`, `p_mp = i_mp*v_mp`, `i_x` the solved
current at `0.5*v_oc`, and `i_xx` the solved current at `0.5*(v_oc+v_mp)`. -/
def C6Contract (pyexp W : ℚ → ℚ) (opt : Option ℚ → DiodeIn → OptResult)
    (d : DiodeIn) (out : SDRow) : Prop :=
  out.i_sc = oi_from_v pyexp W d.r_sh d.r_s d.nNsVth (some (1/100)) d.i_0 d.i_l ∧
  out.v_oc = ov_from_i pyexp W d.r_sh d.r_s d.nNsVth (some 0) d.i_0 d.i_l ∧
  out.i_mp = (opt (omul out.i_sc (some (9/10))) d).x ∧
  out.v_mp = ov_from_i pyexp W d.r_sh d.r_s d.nNsVth out.i_mp d.i_0 d.i_l ∧
  out.p_mp = omul out.i_mp out.v_mp ∧
  out.i_x = oi_from_v pyexp W d.r_sh d.r_s d.nNsVth (omul (some (1/2)) out.v_oc)
    d.i_0 d.i_l ∧
  out.i_xx = oi_from_v pyexp W d.r_sh d.r_s d.nNsVth
    (omul (some (1/2)) (oadd out.v_oc out.v_mp)) d.i_0 d.i_l

/-- Claim C5 exactly as stated: when the bounded maximum-power search fails
to converge at an instant, the solver records NaN (`none`) in that row. -/
def ClaimC5Stated : Prop :=
  ∀ (pyexp W : ℚ → ℚ) (opt : Option ℚ → DiodeIn → OptResult)
    (rows : List DiodeIn) (i : ℕ) (d : DiodeIn) (out : SDRow),
    rows[i]? = some d →
    (singlediode pyexp W opt rows)[i]? = some out →
    (opt (omul out.i_sc (some (9/10))) d).converged = false →
    out.i_mp = none

/-! ## Theorems -/

/-! ## Structural lemmas -/

theorem taskOK_mono {r r' : ℕ} {t : Task} (h : TaskOK r t) (hr : r ≤ r') : TaskOK r' t :=
  fun m hm hn => ⟨lt_of_lt_of_le (h m hm hn).1 hr, (h m hm hn).2⟩

theorem cleanTask_taskOK {t : Task} (h : CleanTask t) (r : ℕ) : TaskOK r t :=
  fun m hm hn => absurd hn (h m hm)

theorem keysG_append (a b : Graph) : keysG (a ++ b) = keysG a ++ keysG b :=
  List.map_append _ _ _

theorem graphOK_append {a b : Graph} (ha : GraphOK a) (hb : GraphOK b) :
    GraphOK (a ++ b) := by
  constructor
  · intro p hp
    rcases List.mem_append.mp hp with h | h
    · exact ha.1 p h
    · exact hb.1 p h
  · intro k hk
    rw [keysG_append] at hk
    rcases List.mem_append.mp hk with h | h
    · exact ha.2 k h
    · exact hb.2 k h

theorem graphOK_nil : GraphOK [] := ⟨by simp, by simp [keysG]⟩

theorem graphOK_single {k : String} {t : Task} (hk : k ∈ nodeNames)
    (ht : TaskOK (rank k) t) : GraphOK [(k, t)] := by
  constructor
  · intro p hp
    rcases List.mem_singleton.mp hp with rfl
    exact ht
  · intro m hm
    rcases List.mem_singleton.mp hm with rfl
    exact hk

theorem lookupG_mem {g : Graph} {n : String} {t : Task}
    (h : lookupG g n = some t) : (n, t) ∈ g := by
  induction g with
  | nil => simp [lookupG] at h
  | cons p g ih =>
      obtain ⟨k, t'⟩ := p
      by_cases hk : n = k
      · subst hk
        simp [lookupG] at h
        subst h
        exact List.mem_cons_self _ _
      · simp [lookupG, hk] at h
        exact List.mem_cons_of_mem _ (ih h)

theorem lookupG_eq_none {g : Graph} {n : String} (h : n ∉ keysG g) :
    lookupG g n = none := by
  induction g with
  | nil => rfl
  | cons p g ih =>
      obtain ⟨k, t'⟩ := p
      simp [keysG] at h
      simp [lookupG, h.1, ih (by simp [keysG, h.2])]

theorem lookupG_append_left {a b : Graph} {n : String} {t : Task}
    (h : lookupG a n = some t) : lookupG (a ++ b) n = some t := by
  induction a with
  | nil => simp [lookupG] at h
  | cons p a ih =>
      obtain ⟨k, t'⟩ := p
      by_cases hk : n = k
      · subst hk
        simp [lookupG] at h ⊢
        exact h
      · simp [lookupG, hk] at h ⊢
        exact ih h

theorem lookupG_append_right {a b : Graph} {n : String} (h : n ∉ keysG a) :
    lookupG (a ++ b) n = lookupG b n := by
  induction a with
  | nil => rfl
  | cons p a ih =>
      obtain ⟨k, t'⟩ := p
      simp [keysG] at h
      simp [lookupG, h.1, ih (by simp [keysG, h.2])]

/-- `optTask` never contributes a string leaf. -/
theorem optTask_strs (o : Option ℚ) : (optTask o).strs = [] := by
  cases o <;> rfl

/-- Keys of the scaffold, independent of all numeric inputs. -/
theorem keysG_initial (lat lon st sa : ℚ) (tm : String) (alt pres : Option ℚ) :
    keysG (initial_dsk lat lon st sa tm alt pres) = scaffoldKeys := rfl

theorem graphOK_initial (lat lon st sa : ℚ) (tm : String) (alt pres : Option ℚ)
    (htm : tm ∉ nodeNames) : GraphOK (initial_dsk lat lon st sa tm alt pres) := by
  constructor
  · intro p hp
    simp only [initial_dsk, List.mem_cons, List.not_mem_nil, or_false] at hp
    rcases hp with rfl | rfl | rfl | rfl | rfl | rfl | rfl | rfl | rfl | rfl |
      rfl | rfl | rfl | rfl
    all_goals intro m hm hn
    all_goals simp only [Task.strs, Task.strs.strsList, apparent_zenith, azimuth,
      poa_global, poa_direct, poa_diffuse, optTask_strs, List.cons_append,
      List.nil_append, List.append_nil] at hm
    all_goals dsimp only
    all_goals
      first
        | exact absurd hm (List.not_mem_nil m)
        | (fin_cases hm <;>
            first
              | exact absurd hn (by decide)
              | exact ⟨by decide, by decide⟩)
        | (simp only [List.mem_cons, List.not_mem_nil, or_false] at hm
           rcases hm with rfl | rfl | rfl | rfl | rfl | rfl | rfl | rfl | rfl | rfl <;>
             first
               | exact absurd hn htm
               | exact absurd hn (by decide)
               | exact ⟨by decide, by decide⟩)
  · intro k hk
    rw [keysG_initial] at hk
    simp only [nodeNames, List.mem_append]
    exact Or.inl (Or.inl hk)

/-! ## Rank bounds for the tasks each stage can produce -/

theorem dispatch_aoi_taskOK {m : String} {mp : PParams} {t : Task}
    (h : dispatch_aoi m mp = .ok t) : TaskOK 3 t := by
  unfold dispatch_aoi at h
  split at h
  · injection h with h; subst h; decide
  · split at h
    · exact Except.noConfusion h
    · split at h
      · injection h with h; subst h; decide
      · split at h
        · injection h with h; subst h; decide
        · exact Except.noConfusion h

theorem assign_aoi_taskOK {a : ModelArg} {mp : PParams} {t : Task}
    (hc : CleanArg a) (h : assign_aoi_model a mp = .ok t) : TaskOK 3 t := by
  cases a with
  | none_ =>
      simp only [assign_aoi_model] at h
      split at h
      · exact Except.noConfusion h
      · exact dispatch_aoi_taskOK h
  | name s =>
      simp only [assign_aoi_model] at h
      exact dispatch_aoi_taskOK h
  | obj t' =>
      simp only [assign_aoi_model] at h
      injection h with h
      subst h
      exact cleanTask_taskOK hc _

theorem dispatch_spectral_taskOK {m : String} {mp : PParams} {t : Task}
    (h : dispatch_spectral m mp = .ok t) : TaskOK 4 t := by
  unfold dispatch_spectral at h
  split at h
  · exact Except.noConfusion h
  · split at h
    · injection h with h; subst h; decide
    · split at h
      · injection h with h; subst h; decide
      · exact Except.noConfusion h

theorem assign_spectral_taskOK {a : ModelArg} {mp : PParams} {t : Task}
    (hc : CleanArg a) (h : assign_spectral_model a mp = .ok t) : TaskOK 4 t := by
  cases a with
  | none_ =>
      simp only [assign_spectral_model] at h
      split at h
      · exact Except.noConfusion h
      · exact dispatch_spectral_taskOK h
  | name s =>
      simp only [assign_spectral_model] at h
      exact dispatch_spectral_taskOK h
  | obj t' =>
      simp only [assign_spectral_model] at h
      injection h with h
      subst h
      exact cleanTask_taskOK hc _

theorem dispatch_dc_taskOK {m : String} {mp : PParams} {t : Task}
    (h : dispatch_dc m mp = .ok t) : TaskOK 7 t := by
  unfold dispatch_dc at h
  split at h
  · split at h
    · exact Except.noConfusion h
    · split at h
      · exact Except.noConfusion h
      · injection h with h
        subst h
        intro m hm hn
        simp only [Task.strs, Task.strs.strsList, List.cons_append, List.nil_append,
          List.append_nil] at hm
        fin_cases hm <;>
          first
            | exact absurd hn (by decide)
            | exact ⟨by decide, by decide⟩
  · split at h
    · injection h with h; subst h; decide
    · exact Except.noConfusion h

theorem assign_dc_taskOK {a : ModelArg} {mp : PParams} {t : Task}
    (hc : CleanArg a) (h : assign_dc_model a mp = .ok t) : TaskOK 7 t := by
  cases a with
  | none_ =>
      simp only [assign_dc_model] at h
      split at h
      · exact Except.noConfusion h
      · exact dispatch_dc_taskOK h
  | name s =>
      simp only [assign_dc_model] at h
      exact dispatch_dc_taskOK h
  | obj t' =>
      simp only [assign_dc_model] at h
      injection h with h
      subst h
      exact cleanTask_taskOK hc _

theorem dispatch_ac_taskOK {m : String} {mp : PParams} {t : Task}
    (h : dispatch_ac m mp = .ok t) : TaskOK 8 t := by
  unfold dispatch_ac at h
  split at h
  · split at h
    · exact Except.noConfusion h
    · injection h with h
      subst h
      intro m hm hn
      simp only [Task.strs, Task.strs.strsList, List.cons_append, List.nil_append,
        List.append_nil] at hm
      fin_cases hm
      exact ⟨by decide, by decide⟩
  · split at h
    · injection h with h; subst h; decide
    · exact Except.noConfusion h

theorem assign_ac_taskOK {a : ModelArg} {mp ip : PParams} {t : Task}
    (hc : CleanArg a) (h : assign_ac_model a mp ip = .ok t) : TaskOK 8 t := by
  cases a with
  | none_ =>
      simp only [assign_ac_model] at h
      split at h
      · exact Except.noConfusion h
      · exact dispatch_ac_taskOK h
  | name s =>
      simp only [assign_ac_model] at h
      exact dispatch_ac_taskOK h
  | obj t' =>
      simp only [assign_ac_model] at h
      injection h with h
      subst h
      exact cleanTask_taskOK hc _

theorem dispatch_losses_taskOK {m : String} {t : Task}
    (h : dispatch_losses m = .ok t) : TaskOK 1 t := by
  unfold dispatch_losses at h
  split at h
  · injection h with h; subst h; decide
  · split at h
    · injection h with h; subst h; decide
    · exact Except.noConfusion h

theorem assign_losses_taskOK {a : ModelArg} {t : Task}
    (hc : CleanArg a) (h : assign_losses_model a = .ok t) : TaskOK 1 t := by
  cases a with
  | none_ =>
      simp only [assign_losses_model] at h
      exact dispatch_losses_taskOK h
  | name s =>
      simp only [assign_losses_model] at h
      exact dispatch_losses_taskOK h
  | obj t' =>
      simp only [assign_losses_model] at h
      injection h with h
      subst h
      exact cleanTask_taskOK hc _

/-- `assign_losses_model` only ever raises `ValueError`: the final `try`
block of `basic_chain` can never propagate an exception. -/
theorem assign_losses_recoverable (a : ModelArg) :
    (∃ t, assign_losses_model a = .ok t) ∨
      ∃ m, assign_losses_model a = .error (.valueError m) := by
  cases a with
  | none_ => exact Or.inr ⟨_, rfl⟩
  | name s =>
      simp only [assign_losses_model]
      unfold dispatch_losses
      by_cases h1 : pyLower s = "pvwatts"
      · rw [if_pos h1]
        exact Or.inl ⟨_, rfl⟩
      · rw [if_neg h1]
        by_cases h2 : pyLower s = "no_loss"
        · rw [if_pos h2]
          exact Or.inl ⟨_, rfl⟩
        · rw [if_neg h2]
          exact Or.inr ⟨_, rfl⟩
  | obj t => exact Or.inl ⟨_, rfl⟩

theorem tryAdd_ok {g g' : Graph} {k : String} {r : Except PyErr Task}
    (h : tryAdd g k r = .ok g') :
    ∃ o : Option Task, g' = g ++ maybeNode k o ∧ ∀ t, o = some t → r = .ok t := by
  cases r with
  | ok t =>
      refine ⟨some t, ?_, ?_⟩
      · injection h with h
        subst h
        rfl
      · intro t' ht'
        injection ht' with ht'
        subst ht'
        rfl
  | error e =>
      cases e with
      | valueError m =>
          refine ⟨none, ?_, ?_⟩
          · injection h with h
            subst h
            simp [maybeNode]
          · intro t' ht'
            exact Option.noConfusion ht'
      | nameError m => exact Except.noConfusion h
      | notImplementedError => exact Except.noConfusion h
      | keyError m => exact Except.noConfusion h

theorem lossesBlock_ok {g g' : Graph} {r : Except PyErr Task}
    (h : lossesBlock g r = .ok g') :
    (∃ t, r = .ok t ∧
        g' = g ++ [("losses", t), ("ac", .app "mul" [.str "ac_no_loss", .str "losses"])]) ∨
      (¬ (∃ t, r = .ok t) ∧
        ((∃ t, lookupG g "ac_no_loss" = some t ∧ g' = g ++ [("ac", t)]) ∨
          (lookupG g "ac_no_loss" = none ∧ g' = g))) := by
  cases r with
  | ok t =>
      left
      refine ⟨t, rfl, ?_⟩
      injection h with h
      subst h
      rfl
  | error e =>
      cases e with
      | valueError m =>
          right
          refine ⟨by rintro ⟨t, ht⟩; exact Except.noConfusion ht, ?_⟩
          unfold lossesBlock at h
          cases hl : lookupG g "ac_no_loss" with
          | some t =>
              rw [hl] at h
              injection h with h
              subst h
              exact Or.inl ⟨t, rfl, rfl⟩
          | none =>
              rw [hl] at h
              injection h with h
              subst h
              exact Or.inr ⟨rfl, rfl⟩
      | nameError m => exact Except.noConfusion h
      | notImplementedError => exact Except.noConfusion h
      | keyError m => exact Except.noConfusion h

/-- Every successful `basic_chain` run decomposes as the scaffold followed by
the optional five stage nodes and the final `ac` assignment. -/
theorem basic_chain_shape {latitude longitude surface_tilt surface_azimuth : ℚ}
    {mp ip : PParams} {tm : String} {altitude pressure : Option ℚ}
    {dm acm am sm lm : ModelArg} {g : Graph}
    (hg : basic_chain latitude longitude surface_tilt surface_azimuth mp ip tm
      altitude pressure dm acm am sm lm = .ok g) :
    ∃ o1 o2 o3 o4 : Option Task,
      (∀ t, o1 = some t → assign_aoi_model am mp = .ok t) ∧
      (∀ t, o2 = some t → assign_spectral_model sm mp = .ok t) ∧
      (∀ t, o3 = some t → assign_dc_model dm mp = .ok t) ∧
      (∀ t, o4 = some t → assign_ac_model acm mp ip = .ok t) ∧
      ((∃ tl, assign_losses_model lm = .ok tl ∧
          g = stageGraph (initial_dsk latitude longitude surface_tilt
              surface_azimuth tm altitude pressure) o1 o2 o3 o4 ++
            [("losses", tl), ("ac", .app "mul" [.str "ac_no_loss", .str "losses"])]) ∨
        (¬ (∃ t, assign_losses_model lm = .ok t) ∧
          ((∃ t, lookupG (stageGraph (initial_dsk latitude longitude surface_tilt
                surface_azimuth tm altitude pressure) o1 o2 o3 o4) "ac_no_loss" = some t ∧
              g = stageGraph (initial_dsk latitude longitude surface_tilt
                surface_azimuth tm altitude pressure) o1 o2 o3 o4 ++ [("ac", t)]) ∨
            (lookupG (stageGraph (initial_dsk latitude longitude surface_tilt
                surface_azimuth tm altitude pressure) o1 o2 o3 o4) "ac_no_loss" = none ∧
              g = stageGraph (initial_dsk latitude longitude surface_tilt
                surface_azimuth tm altitude pressure) o1 o2 o3 o4)))) := by
  unfold basic_chain at hg
  split at hg
  · exact Except.noConfusion hg
  · rename_i g1 h1
    split at hg
    · exact Except.noConfusion hg
    · rename_i g2 h2
      split at hg
      · exact Except.noConfusion hg
      · rename_i g3 h3
        split at hg
        · exact Except.noConfusion hg
        · rename_i g4 h4
          obtain ⟨o1, rfl, ho1⟩ := tryAdd_ok h1
          obtain ⟨o2, rfl, ho2⟩ := tryAdd_ok h2
          obtain ⟨o3, rfl, ho3⟩ := tryAdd_ok h3
          obtain ⟨o4, rfl, ho4⟩ := tryAdd_ok h4
          refine ⟨o1, o2, o3, o4, ho1, ho2, ho3, ho4, ?_⟩
          have := lossesBlock_ok hg
          simpa [stageGraph, List.append_assoc] using this

/-! ## The graph invariant across the pipeline -/

theorem graphOK_maybeNode {k : String} {o : Option Task} (hk : k ∈ nodeNames)
    (h : ∀ t, o = some t → TaskOK (rank k) t) : GraphOK (maybeNode k o) := by
  cases o with
  | none => exact graphOK_nil
  | some t => exact graphOK_single hk (h t rfl)

theorem keysG_maybeNode {k m : String} {o : Option Task}
    (h : m ∈ keysG (maybeNode k o)) : m = k := by
  cases o with
  | none => simp [maybeNode, keysG] at h
  | some t =>
      simp [maybeNode, keysG] at h
      exact h

theorem rankDecreasing_of_graphOK {g : Graph} (h : GraphOK g) : RankDecreasing g :=
  fun p hp m hm hk => ((h.1 p hp) m hm (h.2 m hk)).1

theorem refsResolve_of {g : Graph} (h : GraphOK g)
    (hsc : ∀ k ∈ scaffoldKeys, k ∈ keysG g)
    (hst : ∀ k ∈ stageKeys, k ∈ keysG g) : RefsResolve g := by
  intro p hp m hm hn
  have hrt := ((h.1 p hp) m hm hn).2
  rcases List.mem_append.mp (by simpa [refTargets] using hrt) with h1 | h1
  · exact hsc m h1
  · exact hst m h1

theorem graphOK_stageGraph {g0 : Graph} {o1 o2 o3 o4 : Option Task}
    {am sm dm acm : ModelArg} {mp ip : PParams}
    (h0 : GraphOK g0) (ham : CleanArg am) (hsm : CleanArg sm) (hdm : CleanArg dm)
    (hacm : CleanArg acm)
    (ho1 : ∀ t, o1 = some t → assign_aoi_model am mp = .ok t)
    (ho2 : ∀ t, o2 = some t → assign_spectral_model sm mp = .ok t)
    (ho3 : ∀ t, o3 = some t → assign_dc_model dm mp = .ok t)
    (ho4 : ∀ t, o4 = some t → assign_ac_model acm mp ip = .ok t) :
    GraphOK (stageGraph g0 o1 o2 o3 o4) := by
  refine graphOK_append (graphOK_append (graphOK_append (graphOK_append h0 ?_) ?_) ?_) ?_
  · exact graphOK_maybeNode (by decide)
      (fun t ht => assign_aoi_taskOK ham (ho1 t ht))
  · exact graphOK_maybeNode (by decide)
      (fun t ht => assign_spectral_taskOK hsm (ho2 t ht))
  · exact graphOK_maybeNode (by decide)
      (fun t ht => assign_dc_taskOK hdm (ho3 t ht))
  · exact graphOK_maybeNode (by decide)
      (fun t ht => assign_ac_taskOK hacm (ho4 t ht))

theorem keysG_stageGraph_sub (g0 : Graph) (o1 o2 o3 o4 : Option Task)
    (hk : keysG g0 = scaffoldKeys) :
    ∀ k ∈ keysG (stageGraph g0 o1 o2 o3 o4),
      k ∈ scaffoldKeys ++ ["aoi_modifier", "spectral_modifier", "dc", "ac_no_loss"] := by
  intro k hk'
  simp only [stageGraph, keysG_append, List.mem_append] at hk'
  simp only [List.mem_append]
  rcases hk' with (((h | h) | h) | h) | h
  · exact Or.inl (hk ▸ h)
  · exact Or.inr (by simp [keysG_maybeNode h])
  · exact Or.inr (by simp [keysG_maybeNode h])
  · exact Or.inr (by simp [keysG_maybeNode h])
  · exact Or.inr (by simp [keysG_maybeNode h])

theorem scaffold_mem_stageGraph {g0 : Graph} {o1 o2 o3 o4 : Option Task} {k : String}
    (hk0 : keysG g0 = scaffoldKeys) (hk : k ∈ scaffoldKeys) :
    k ∈ keysG (stageGraph g0 o1 o2 o3 o4) := by
  simp only [stageGraph, keysG_append, List.mem_append]
  exact Or.inl (Or.inl (Or.inl (Or.inl (hk0 ▸ hk))))

/-- C1, amended.  For every graph `basic_chain` returns — provided the
caller-supplied literal model objects and the transposition-model string do
not themselves mention node names — the node-reference relation is acyclic:
`rank` decreases along every reference, so a topological sort over node
references succeeds.  Reference resolution, however, holds only when all
five model stages resolved: then every node-name reference present in any
task is a key of the graph.  (When a stage fails to resolve, the graph is
still returned with dangling references; see the counterexample.) -/
theorem claim_C1 (latitude longitude surface_tilt surface_azimuth : ℚ)
    (mp ip : PParams) (tm : String) (altitude pressure : Option ℚ)
    (dm acm am sm lm : ModelArg) (g : Graph)
    (htm : tm ∉ nodeNames)
    (ham : CleanArg am) (hsm : CleanArg sm) (hdm : CleanArg dm)
    (hacm : CleanArg acm) (hlm : CleanArg lm)
    (hg : basic_chain latitude longitude surface_tilt surface_azimuth mp ip tm
      altitude pressure dm acm am sm lm = .ok g) :
    RankDecreasing g ∧ ((∀ k ∈ stageKeys, k ∈ keysG g) → RefsResolve g) := by
  obtain ⟨o1, o2, o3, o4, ho1, ho2, ho3, ho4, hcase⟩ := basic_chain_shape hg
  have h0 : GraphOK (initial_dsk latitude longitude surface_tilt surface_azimuth
      tm altitude pressure) :=
    graphOK_initial _ _ _ _ _ _ _ htm
  have hSG : GraphOK (stageGraph (initial_dsk latitude longitude surface_tilt
      surface_azimuth tm altitude pressure) o1 o2 o3 o4) :=
    graphOK_stageGraph h0 ham hsm hdm hacm ho1 ho2 ho3 ho4
  have hGOK : GraphOK g := by
    rcases hcase with ⟨tl, htl, rfl⟩ | ⟨hnotok, ⟨t, hlook, rfl⟩ | ⟨hlook, rfl⟩⟩
    · refine graphOK_append hSG ?_
      have h1 : GraphOK [("losses", tl)] :=
        graphOK_single (by decide) (assign_losses_taskOK hlm htl)
      have h2 : GraphOK [("ac", Task.app "mul" [.str "ac_no_loss", .str "losses"])] :=
        graphOK_single (by decide) (by decide)
      exact graphOK_append h1 h2
    · refine graphOK_append hSG (graphOK_single (by decide)
        (taskOK_mono (hSG.1 _ (lookupG_mem hlook)) ?_))
      show rank "ac_no_loss" ≤ rank "ac"
      decide
    · exact hSG
  refine ⟨rankDecreasing_of_graphOK hGOK, ?_⟩
  intro hst
  refine refsResolve_of hGOK ?_ hst
  intro k hk
  rcases hcase with ⟨tl, htl, hgeq⟩ | ⟨hnotok, ⟨t, hlook, hgeq⟩ | ⟨hlook, hgeq⟩⟩
  · rw [hgeq, keysG_append]
    exact List.mem_append_left _ (scaffold_mem_stageGraph (keysG_initial _ _ _ _ _ _ _) hk)
  · rw [hgeq, keysG_append]
    exact List.mem_append_left _ (scaffold_mem_stageGraph (keysG_initial _ _ _ _ _ _ _) hk)
  · rw [hgeq]
    exact scaffold_mem_stageGraph (keysG_initial _ _ _ _ _ _ _) hk

/-- C1, counterexample: on the `gC1bad` run `basic_chain` succeeds, yet the
node `effective_irradiance` references `aoi_modifier`, which is not a key of
the returned graph — the claimed reference-resolution invariant fails. -/
theorem claim_C1_counterexample : ¬ ClaimC1Stated := by
  intro h
  exact absurd
    (h 32 110 30 180 [("pdc0", 1000), ("gamma_pdc", -1)] [] "haydavies" none none
      .none_ .none_ .none_ (.name "no_loss") (.name "no_loss") gC1bad rfl).2
    (by decide)

/-- C1, witness for the amended theorem at a concrete fully-resolving run. -/
theorem claim_C1_witness : RankDecreasing gC1full ∧ RefsResolve gC1full := by
  have h := claim_C1 32 110 30 180 [("pdc0", 1000), ("gamma_pdc", -1), ("b", 1)] []
    "haydavies" none none .none_ .none_ .none_ (.name "no_loss") (.name "no_loss")
    gC1full (by decide) trivial trivial trivial trivial trivial rfl
  exact ⟨h.1, h.2 (by decide)⟩

/-- C3, amended.  In every graph `basic_chain` returns: when the losses
stage resolved (`losses` is a key), `ac` is assigned the product task
`(mul, ac_no_loss, losses)` — even when `ac_no_loss` itself failed to
resolve, leaving a dangling reference; when the losses stage did not
resolve, `ac` is exactly the `ac_no_loss` entry (present with the same task
when that stage resolved, absent otherwise). -/
theorem claim_C3 (latitude longitude surface_tilt surface_azimuth : ℚ)
    (mp ip : PParams) (tm : String) (altitude pressure : Option ℚ)
    (dm acm am sm lm : ModelArg) (g : Graph)
    (hg : basic_chain latitude longitude surface_tilt surface_azimuth mp ip tm
      altitude pressure dm acm am sm lm = .ok g) :
    ("losses" ∈ keysG g →
      lookupG g "ac" = some (.app "mul" [.str "ac_no_loss", .str "losses"])) ∧
    ("losses" ∉ keysG g → lookupG g "ac" = lookupG g "ac_no_loss") := by
  obtain ⟨o1, o2, o3, o4, ho1, ho2, ho3, ho4, hcase⟩ := basic_chain_shape hg
  have hsub := keysG_stageGraph_sub (initial_dsk latitude longitude
    surface_tilt surface_azimuth tm altitude pressure) o1 o2 o3 o4
    (keysG_initial _ _ _ _ _ _ _)
  have hac : "ac" ∉ keysG (stageGraph (initial_dsk latitude longitude
      surface_tilt surface_azimuth tm altitude pressure) o1 o2 o3 o4) :=
    fun hmem => absurd (hsub _ hmem) (by decide)
  have hlo : "losses" ∉ keysG (stageGraph (initial_dsk latitude longitude
      surface_tilt surface_azimuth tm altitude pressure) o1 o2 o3 o4) :=
    fun hmem => absurd (hsub _ hmem) (by decide)
  rcases hcase with ⟨tl, htl, rfl⟩ | ⟨hnotok, ⟨t, hlook, rfl⟩ | ⟨hlook, rfl⟩⟩
  · constructor
    · intro _
      rw [lookupG_append_right hac]
      rfl
    · intro hmem
      exact absurd (by
        rw [keysG_append]
        exact List.mem_append_right _ (by simp [keysG])) hmem
  · constructor
    · intro hmem
      rw [keysG_append] at hmem
      rcases List.mem_append.mp hmem with h | h
      · exact absurd h hlo
      · simp [keysG] at h
    · intro _
      rw [lookupG_append_right hac, lookupG_append_left hlook]
      rfl
  · constructor
    · intro hmem
      exact absurd hmem hlo
    · intro _
      rw [lookupG_eq_none hac, hlook]

/-- C3, counterexample: on the `gC3bad` run, `ac` is a key although
`ac_no_loss` is not — `ac` is populated with a reference to the unresolved
`ac_no_loss` node, contradicting the claim. -/
theorem claim_C3_counterexample : ¬ ClaimC3Stated := by
  intro h
  exact absurd
    (h 32 110 30 180 [("pdc0", 1000), ("gamma_pdc", -1)] [] "haydavies" none none
      .none_ (.name "foo") (.name "no_loss") (.name "no_loss") (.name "no_loss")
      gC3bad rfl).1
    (by decide)

/-- C3, witness for the amended theorem on the losses-failure run. -/
theorem claim_C3_witness :
    lookupG gC3fallback "ac" = lookupG gC3fallback "ac_no_loss" :=
  (claim_C3 32 110 30 180 [("pdc0", 1000), ("gamma_pdc", -1)] [] "haydavies"
    none none .none_ .none_ (.name "no_loss") (.name "no_loss") .none_
    gC3fallback rfl).2 (by decide)

/-- C2, amended.  An unrecognized variant name makes the assign function
raise `ValueError`, but `basic_chain` catches `ValueError`, downgrades it to
a warning, omits the stage, and still returns a graph — shown here for the
AC domain: the compile succeeds without `ac_no_loss` while the other stages
are unaffected.  (Unrecognized DC names instead abort with `NameError`; see
C10.) -/
theorem claim_C2 (latitude longitude surface_tilt surface_azimuth : ℚ)
    (mp ip : PParams) (tm : String) (altitude pressure : Option ℚ)
    (dcT : Task) (lm : ModelArg) (s : String)
    (h1 : pyLower s ≠ "pvwatts") (h2 : pyLower s ≠ "snlinverter") :
    assign_ac_model (.name s) mp ip =
      .error (.valueError (pyLower s ++ " is not a valid AC power model")) ∧
    ∃ g, basic_chain latitude longitude surface_tilt surface_azimuth mp ip tm
        altitude pressure (.obj dcT) (.name s) (.name "no_loss") (.name "no_loss")
        lm = .ok g ∧
      "ac_no_loss" ∉ keysG g ∧ "dc" ∈ keysG g := by
  have hms : assign_ac_model (.name s) mp ip =
      .error (.valueError (pyLower s ++ " is not a valid AC power model")) := by
    simp only [assign_ac_model]
    unfold dispatch_ac
    rw [if_neg h1, if_neg h2]
  refine ⟨hms, ?_⟩
  have key : basic_chain latitude longitude surface_tilt surface_azimuth mp ip tm
      altitude pressure (.obj dcT) (.name s) (.name "no_loss") (.name "no_loss") lm =
      match tryAdd (initial_dsk latitude longitude surface_tilt surface_azimuth tm
          altitude pressure ++ [("aoi_modifier", Task.num 1)] ++
          [("spectral_modifier", Task.num 1)] ++ [("dc", dcT)])
          "ac_no_loss" (assign_ac_model (.name s) mp ip) with
      | .error e => .error e
      | .ok g4 => lossesBlock g4 (assign_losses_model lm) := rfl
  rw [key, hms]
  rcases assign_losses_recoverable lm with ⟨tl, htl⟩ | ⟨m, hlm⟩
  · rw [htl]
    refine ⟨_, rfl, ?_, ?_⟩
    · simp [keysG_append, keysG, initial_dsk]
    · simp [keysG_append, keysG, initial_dsk]
  · rw [hlm]
    refine ⟨_, rfl, ?_, ?_⟩
    · simp [keysG_append, keysG, initial_dsk]
    · simp [keysG_append, keysG, initial_dsk]

/-- C2, counterexample: a compile request with the unrecognized AC model name
`foo` still returns a graph (with the AC stage silently omitted), so the
failure is downgraded rather than fatal. -/
theorem claim_C2_counterexample : ¬ ClaimC2Stated := by
  intro h
  exact h 32 110 30 180 [("pdc0", 1000), ("gamma_pdc", -1)] [] "haydavies" none
    none .none_ (.name "no_loss") (.name "no_loss") (.name "no_loss") "foo"
    (by decide) (by decide) gC3bad rfl

/-- C2, witness for the amended theorem at the unrecognized AC name `foo`. -/
theorem claim_C2_witness :
    assign_ac_model (.name "foo") [("pdc0", 1000)] [] =
      .error (.valueError (pyLower "foo" ++ " is not a valid AC power model")) ∧
    ∃ g, basic_chain 32 110 30 180 [("pdc0", 1000)] [] "haydavies" none none
        (.obj (Task.num 7)) (.name "foo") (.name "no_loss") (.name "no_loss")
        (.name "no_loss") = .ok g ∧
      "ac_no_loss" ∉ keysG g ∧ "dc" ∈ keysG g :=
  claim_C2 32 110 30 180 [("pdc0", 1000)] [] "haydavies" none none (Task.num 7)
    (.name "no_loss") "foo" (by decide) (by decide)

/-- C10: supplying the enumerated DC variant name `singlediode` does not
select a DC stage, does not raise the name-validation `ValueError`
(`InvalidModelNameError`), and is not downgraded to a diagnostic: the
comparison `mode == 'singlediode'` reads the undefined variable `mode`, so
`assign_dc_model` raises `NameError`, which the compiler's `ValueError`
handler does not catch — the whole compile request aborts. -/
theorem claim_C10 (latitude longitude surface_tilt surface_azimuth : ℚ)
    (mp ip : PParams) (tm : String) (altitude pressure : Option ℚ)
    (acm lm : ModelArg) :
    assign_dc_model (.name "singlediode") mp =
      .error (.nameError "name mode is not defined") ∧
    basic_chain latitude longitude surface_tilt surface_azimuth mp ip tm
      altitude pressure (.name "singlediode") acm (.name "no_loss")
      (.name "no_loss") lm = .error (.nameError "name mode is not defined") ∧
    ∀ m, (PyErr.nameError "name mode is not defined") ≠ .valueError m := by
  refine ⟨rfl, rfl, ?_⟩
  intro m h
  exact PyErr.noConfusion h

/-- C4: the two `lambda x: x[i]` selectors index the `(altitude, pressure)`
tuple in the wrong order, so with neither input supplied the node named
`pressure` evaluates to 0 (the default altitude) and the node named
`altitude` evaluates to 101325 (the default pressure); with only
`altitude = 700` supplied, `pressure` evaluates to 700 and `altitude` to the
barometrically derived pressure.  This contradicts the claimed (and intended)
assignment — `airmass_absolute` consumes the node named `pressure` as a
pressure. -/
theorem claim_C4 (pres2alt alt2pres : ℚ → ℚ) :
    evalNode pres2alt alt2pres gC4 "pressure" = some (.q 0) ∧
    evalNode pres2alt alt2pres gC4 "altitude" = some (.q 101325) ∧
    evalNode pres2alt alt2pres gC4alt "pressure" = some (.q 700) ∧
    evalNode pres2alt alt2pres gC4alt "altitude" = some (.q (alt2pres 700)) :=
  ⟨rfl, rfl, rfl, rfl⟩

/-- C6: every output row of `singlediode` satisfies the fixed derived
definitions of the operating points, with the maximum-power search over
current seeded at `0.9*i_sc`. -/
theorem claim_C6 (pyexp W : ℚ → ℚ) (opt : Option ℚ → DiodeIn → OptResult)
    (rows : List DiodeIn) (i : ℕ) (d : DiodeIn) (out : SDRow)
    (hd : rows[i]? = some d)
    (hout : (singlediode pyexp W opt rows)[i]? = some out) :
    C6Contract pyexp W opt d out := by
  simp only [singlediode, List.getElem?_map, hd, Option.map_some'] at hout
  injection hout with hout
  subst hout
  exact ⟨rfl, rfl, rfl, rfl, rfl, rfl, rfl⟩

/-- C6, witness at a concrete instant. -/
theorem claim_C6_witness :
    C6Contract id id (fun s _ => ⟨s, true⟩) ⟨some 1, some 1, some 1, some 1, some 1⟩
      (sd_row id id (fun s _ => ⟨s, true⟩) ⟨some 1, some 1, some 1, some 1, some 1⟩) :=
  claim_C6 id id (fun s _ => ⟨s, true⟩) [⟨some 1, some 1, some 1, some 1, some 1⟩]
    0 _ _ rfl rfl

/-- C5, counterexample: an optimizer that reports non-convergence while
returning the point `1` — `singlediode` records `1`, not NaN, because the
source never inspects the `fmin_tnc` return code. -/
theorem claim_C5_counterexample : ¬ ClaimC5Stated := by
  intro h
  have := h id id (fun _ _ => ⟨some 1, false⟩)
    [⟨some 1, some 1, some 1, some 1, some 1⟩] 0 _ _ rfl rfl rfl
  exact Option.noConfusion this

/-- C5, amended: non-convergence at an instant never aborts the batch — the
per-row loop produces an output row for every input row — but the value
recorded for `i_mp` is whatever point the bounded search returned, with its
convergence status ignored; NaN is not substituted on non-convergence (NaN
appears in a row only by propagation from NaN inputs). -/
theorem claim_C5 (pyexp W : ℚ → ℚ) (opt : Option ℚ → DiodeIn → OptResult)
    (rows : List DiodeIn) :
    (singlediode pyexp W opt rows).length = rows.length ∧
    ∀ (i : ℕ) (d : DiodeIn) (out : SDRow), rows[i]? = some d →
      (singlediode pyexp W opt rows)[i]? = some out →
      out.i_mp = (opt (omul out.i_sc (some (9/10))) d).x := by
  constructor
  · simp [singlediode]
  · intro i d out hd hout
    simp only [singlediode, List.getElem?_map, hd, Option.map_some'] at hout
    injection hout with hout
    subst hout
    rfl

/-- C5, witness: at a concrete instant whose search does not converge, an
output row exists and carries the returned point. -/
theorem claim_C5_witness :
    (singlediode id id (fun _ _ => ⟨some 1, false⟩)
      [⟨some 1, some 1, some 1, some 1, some 1⟩]).length = 1 ∧
    (sd_row id id (fun _ _ => ⟨some 1, false⟩)
        ⟨some 1, some 1, some 1, some 1, some 1⟩).i_mp = some 1 :=
  ⟨(claim_C5 id id (fun _ _ => ⟨some 1, false⟩)
      [⟨some 1, some 1, some 1, some 1, some 1⟩]).1,
   (claim_C5 id id (fun _ _ => ⟨some 1, false⟩)
      [⟨some 1, some 1, some 1, some 1, some 1⟩]).2 0 _ _ rfl rfl⟩

/-! ## Model inference (C7, C8, C9) -/

/-- `required <= keys` holds exactly when every required key is present. -/
theorem subsetKeys_eq_true {req keys : List String} :
    subsetKeys req keys = true ↔ ∀ k ∈ req, k ∈ keys := by
  simp [subsetKeys]

/-- C7: when the module key set contains `pdc0` and `gamma_pdc` but neither
the SAPM DC key set `{A0, A1, C7}` nor the single-diode key set
`{a_ref, I_L_ref, I_o_ref, R_sh_ref, R_s}`, DC inference returns `pvwatts`;
and when no DC rule key set is contained in the keys, inference fails with
the DC `ModelInferenceError` (`ValueError`). -/
theorem claim_C7 (mp : PParams) :
    (("pdc0" ∈ keyset mp ∧ "gamma_pdc" ∈ keyset mp) →
      ¬ (∀ k ∈ (["A0", "A1", "C7"] : List String), k ∈ keyset mp) →
      ¬ (∀ k ∈ (["a_ref", "I_L_ref", "I_o_ref", "R_sh_ref", "R_s"] : List String),
          k ∈ keyset mp) →
      infer_dc_model mp = .ok "pvwatts") ∧
    (¬ (∀ k ∈ (["A0", "A1", "C7"] : List String), k ∈ keyset mp) →
      ¬ (∀ k ∈ (["a_ref", "I_L_ref", "I_o_ref", "R_sh_ref", "R_s"] : List String),
          k ∈ keyset mp) →
      ¬ (∀ k ∈ (["pdc0", "gamma_pdc"] : List String), k ∈ keyset mp) →
      infer_dc_model mp =
        .error (.valueError "could not infer DC model from module_parameters")) := by
  constructor
  · intro hin hs1 hs2
    unfold infer_dc_model
    rw [if_neg, if_neg, if_pos]
    · exact subsetKeys_eq_true.mpr (by
        intro k hk
        simp only [List.mem_cons, List.not_mem_nil, or_false] at hk
        rcases hk with rfl | rfl
        · exact hin.1
        · exact hin.2)
    · exact fun h => hs2 (subsetKeys_eq_true.mp h)
    · exact fun h => hs1 (subsetKeys_eq_true.mp h)
  · intro hs1 hs2 hs3
    unfold infer_dc_model
    rw [if_neg, if_neg, if_neg]
    · exact fun h => hs3 (subsetKeys_eq_true.mp h)
    · exact fun h => hs2 (subsetKeys_eq_true.mp h)
    · exact fun h => hs1 (subsetKeys_eq_true.mp h)

/-- C7, witnesses for both branches. -/
theorem claim_C7_witness :
    infer_dc_model [("pdc0", 1000), ("gamma_pdc", -1)] = .ok "pvwatts" ∧
    infer_dc_model [("x", 1)] =
      .error (.valueError "could not infer DC model from module_parameters") :=
  ⟨(claim_C7 [("pdc0", 1000), ("gamma_pdc", -1)]).1 (by decide) (by decide) (by decide),
   (claim_C7 [("x", 1)]).2 (by decide) (by decide) (by decide)⟩

/-- C8: whenever the inverter key set contains `{C0, C1, C2}`, AC inference
returns `snlinverter`, for every module key set — the module keys have no
influence on this outcome. -/
theorem claim_C8 (mp ip : PParams)
    (h : ∀ k ∈ (["C0", "C1", "C2"] : List String), k ∈ keyset ip) :
    infer_ac_model mp ip = .ok "snlinverter" := by
  unfold infer_ac_model
  rw [if_pos (subsetKeys_eq_true.mpr h)]

/-- C8, witness: two different module key sets, same outcome. -/
theorem claim_C8_witness :
    infer_ac_model [] [("C0", 1), ("C1", 2), ("C2", 3)] = .ok "snlinverter" ∧
    infer_ac_model [("pdc0", 5), ("zz", 0)] [("C0", 1), ("C1", 2), ("C2", 3)] =
      .ok "snlinverter" :=
  ⟨claim_C8 [] [("C0", 1), ("C1", 2), ("C2", 3)] (by decide),
   claim_C8 [("pdc0", 5), ("zz", 0)] [("C0", 1), ("C1", 2), ("C2", 3)] (by decide)⟩

/-- `subsetKeys` only depends on key-set membership. -/
theorem subsetKeys_congr {ks1 ks2 : List String} (h : ∀ s, s ∈ ks1 ↔ s ∈ ks2)
    (req : List String) : subsetKeys req ks1 = subsetKeys req ks2 := by
  induction req with
  | nil => rfl
  | cons a r ih =>
      show (decide (a ∈ ks1) && subsetKeys r ks1) =
        (decide (a ∈ ks2) && subsetKeys r ks2)
      rw [ih, decide_eq_decide.mpr (h a)]

/-- C9: model inference is a function of the parameter key sets only — for
any two parameter mappings with the same key sets (and arbitrarily different
values), every domain infers the same variant or fails identically; no
parameter value is inspected. -/
theorem claim_C9 (mp1 mp2 ip1 ip2 : PParams)
    (hm : ∀ s, s ∈ keyset mp1 ↔ s ∈ keyset mp2)
    (hi : ∀ s, s ∈ keyset ip1 ↔ s ∈ keyset ip2) :
    infer_aoi_model mp1 = infer_aoi_model mp2 ∧
    infer_spectral_model mp1 = infer_spectral_model mp2 ∧
    infer_dc_model mp1 = infer_dc_model mp2 ∧
    infer_ac_model mp1 ip1 = infer_ac_model mp2 ip2 := by
  refine ⟨?_, ?_, ?_, ?_⟩
  · unfold infer_aoi_model
    rw [subsetKeys_congr hm ["K", "L", "n"],
      subsetKeys_congr hm ["B5", "B4", "B3", "B2", "B1", "B0"],
      subsetKeys_congr hm ["b"]]
  · unfold infer_spectral_model
    rw [subsetKeys_congr hm ["A4", "A3", "A2", "A1", "A0"],
      decide_eq_decide.mpr (hm "Technology"),
      decide_eq_decide.mpr (hm "Material"),
      decide_eq_decide.mpr (hm "first_solar_spectral_coefficients")]
  · unfold infer_dc_model
    rw [subsetKeys_congr hm ["A0", "A1", "C7"],
      subsetKeys_congr hm ["a_ref", "I_L_ref", "I_o_ref", "R_sh_ref", "R_s"],
      subsetKeys_congr hm ["pdc0", "gamma_pdc"]]
  · unfold infer_ac_model
    rw [subsetKeys_congr hi ["C0", "C1", "C2"],
      subsetKeys_congr hi ["ADRCoefficients"],
      subsetKeys_congr hm ["pdc0"]]

/-- C9, witness: two module mappings and two inverter mappings with the same
keys but different values infer identically in every domain. -/
theorem claim_C9_witness :
    infer_aoi_model [("pdc0", 1), ("b", 2)] = infer_aoi_model [("pdc0", 7), ("b", 9)] ∧
    infer_spectral_model [("pdc0", 1), ("b", 2)] =
      infer_spectral_model [("pdc0", 7), ("b", 9)] ∧
    infer_dc_model [("pdc0", 1), ("b", 2)] = infer_dc_model [("pdc0", 7), ("b", 9)] ∧
    infer_ac_model [("pdc0", 1), ("b", 2)] [("C0", 0)] =
      infer_ac_model [("pdc0", 7), ("b", 9)] [("C0", 4)] :=
  claim_C9 [("pdc0", 1), ("b", 2)] [("pdc0", 7), ("b", 9)] [("C0", 0)] [("C0", 4)]
    (fun s => Iff.rfl) (fun s => Iff.rfl)

end PV
